import Mathlib

/-!
Verification of the park-use filtering and aggregation pipeline of `app.py`.

Shallow-embedding conventions:
* The pandas `GeoDataFrame` of trip pings is a `List TripPing`; the parks
  frame is a `List ParkPolygon`.  Row order of a frame is list order.
* `utc_timestamp` is modelled as seconds since an epoch (`Nat`); the
  `.dt.date` projection (app.py lines 178-179) becomes division by 86400,
  and the minute-resolution `strftime("%Y-%m-%d %H:%M")` display format
  (lines 308-309, 324-325) becomes division by 60 (the display string is
  determined by, and determines, the minute count).
* Boolean-mask row selection `df[mask]` is `List.filter`, which preserves
  row order exactly as pandas does.
* `groupby(...)` with the default `sort=True, dropna=True` drops null keys
  and enumerates group keys in ascending order; `.agg` with `nunique` is
  the length of `List.dedup`, with `count` the group length, and with
  `min`/`max` folds over the group's column.
* `sort_values(col, ascending=False)` (line 306) computes an ascending
  argsort of the column and reverses the resulting permutation
  (pandas `nargsort` with `ascending=False`); on the inputs at issue the
  numpy argsort is stable (introsort falls back to insertion sort), so it
  is modelled as the stable `List.insertionSort` followed by
  `List.reverse`.
* The hard-coded `selected_visitor_type = "Visitor"` (line 169) and the
  commented-out sidebar radio selector are modelled by making the
  visit-status filter parametric in a `VisitorMode` and instantiating the
  deployed pipeline at `VisitorMode.Visitor`.
* `st.stop()` after the incomplete-date-range message (lines 149-153) is
  modelled by the pipeline returning `Except.error` and producing none of
  its outputs.
* Geometry columns and float lon/lat values are never inspected by the
  filtering/aggregation logic; lon/lat are carried as opaque `Int` fields
  and polygon geometry is not carried at all.
-/

/-- One row of the trip-pings frame (`load_trip_pings`): `ad_id` realises the
spec's `device_id`; `park_name` may be null (`None`). -/
structure TripPing where
  ad_id : String
  park_name : Option String
  utc_timestamp : Nat
  lon : Int
  lat : Int
  visited_park : Bool
deriving DecidableEq, Repr

/-- One row of the parks frame (`load_parks`): `ParkGroupDescription` is the
join key to `TripPing.park_name`; `GlobalID` keys the metadata lookup. -/
structure ParkPolygon where
  ParkGroupDescription : String
  GlobalID : String
deriving DecidableEq, Repr

/-- The visit-status modes of the (partly commented-out) selector:
`"All"`, `"Visitor"`, `"Non-Visitor"`. -/
inductive VisitorMode where
  | All : VisitorMode
  | Visitor : VisitorMode
  | NonVisitor : VisitorMode
deriving DecidableEq, Repr

/-- `gdf[gdf["park_name"].isin(selected_parks)]` (line 165).  A null
`park_name` is never a member of the selection (pandas `isin`). -/
def parkFilter (selected : List String) (g : List TripPing) : List TripPing :=
  g.filter fun r =>
    match r.park_name with
    | some p => selected.contains p
    | none => false

/-- `parks_gdf[parks_gdf["ParkGroupDescription"].isin(selected_parks)].copy()`
(line 166); `.copy()` is the identity on values. -/
def parksFilter (selected : List String) (parks : List ParkPolygon) :
    List ParkPolygon :=
  parks.filter fun r => selected.contains r.ParkGroupDescription

/-- The `if/elif` dispatch on `selected_visitor_type` (lines 170-173):
`"Visitor"` keeps `visited_park == True`, `"Non-Visitor"` keeps
`visited_park == False`, anything else (`"All"`) applies no filter. -/
def visitorFilter : VisitorMode → List TripPing → List TripPing
  | .Visitor, g => g.filter fun r => r.visited_park == true
  | .NonVisitor, g => g.filter fun r => r.visited_park == false
  | .All, g => g

/-- The `.dt.date` projection of a timestamp: its calendar day. -/
def dateOf (ts : Nat) : Nat := ts / 86400

/-- The date-range mask (lines 177-180):
`(dt.date >= start_date) & (dt.date <= end_date)`. -/
def dateFilter (s e : Nat) (g : List TripPing) : List TripPing :=
  g.filter fun r =>
    decide (s ≤ dateOf r.utc_timestamp) && decide (dateOf r.utc_timestamp ≤ e)

/-- The upstream filter chain exactly as sequenced in lines 165-180:
park selection, then visit status, then date range. -/
def filteredPoints (mode : VisitorMode) (selected : List String) (s e : Nat)
    (g : List TripPing) : List TripPing :=
  dateFilter s e (visitorFilter mode (parkFilter selected g))

/-- Active-park focus on points (lines 197-202): a non-sentinel
`active_park` keeps only rows with `park_name == active_park`; the sentinel
`"All"` keeps the frame unchanged. -/
def focusPoints (active : String) (fg : List TripPing) : List TripPing :=
  if active ≠ "All" then fg.filter fun r => r.park_name == some active
  else fg

/-- Active-park focus on polygons (lines 197-201). -/
def focusParks (active : String) (fp : List ParkPolygon) : List ParkPolygon :=
  if active ≠ "All" then fp.filter fun r => r.ParkGroupDescription == active
  else fp

/-- `min` of a pandas column over a (nonempty) group; 0 on the empty list,
which no group ever is. -/
def tsMin : List Nat → Nat
  | [] => 0
  | a :: l => l.foldl Nat.min a

/-- `max` of a pandas column over a (nonempty) group. -/
def tsMax : List Nat → Nat
  | [] => 0
  | a :: l => l.foldl Nat.max a

/-- Code-point lexicographic comparison of character lists: the order in
which pandas sorts string group keys. -/
def charListLtb : List Char → List Char → Bool
  | [], [] => false
  | [], _ :: _ => true
  | _ :: _, [] => false
  | a :: as, b :: bs =>
    if a < b then true else if b < a then false else charListLtb as bs

/-- Strict code-point order on strings. -/
def strLtb (a b : String) : Bool := charListLtb a.data b.data

/-- Reflexive code-point order on strings (total: `a ≤ b ↔ ¬ b < a`). -/
def strLE (a b : String) : Prop := (!strLtb b a) = true

instance : DecidableRel strLE := fun a b =>
  inferInstanceAs (Decidable (_ = true))

/-- Group keys of `focus_gdf.groupby("park_name")` (line 298): the distinct
non-null park names, in ascending order (`sort=True`, `dropna=True`). -/
def parkKeys (g : List TripPing) : List String :=
  ((g.filterMap (·.park_name)).dedup).insertionSort strLE

/-- The rows of the group keyed by park name `p`. -/
def parkGroup (p : String) (g : List TripPing) : List TripPing :=
  g.filter fun r => r.park_name == some p

/-- One row of the park-summary table (lines 296-307), pre-display. -/
structure ParkSummaryRow where
  park_name : String
  num_visitors : Nat
  num_pings : Nat
  first_ping : Nat
  last_ping : Nat
deriving DecidableEq, Repr

/-- The `.agg` of lines 299-304 for one park group: `nunique` of `ad_id`,
`count`, `min` and `max` of `utc_timestamp`. -/
def mkParkRow (g : List TripPing) (p : String) : ParkSummaryRow :=
  { park_name := p
    num_visitors := (((parkGroup p g).map (·.ad_id)).dedup).length
    num_pings := (parkGroup p g).length
    first_ping := tsMin ((parkGroup p g).map (·.utc_timestamp))
    last_ping := tsMax ((parkGroup p g).map (·.utc_timestamp)) }

/-- Comparison used by `sort_values("num_visitors", ...)` (line 306). -/
def nvLE (a b : ParkSummaryRow) : Prop := a.num_visitors ≤ b.num_visitors

instance : DecidableRel nvLE := fun a b =>
  inferInstanceAs (Decidable (a.num_visitors ≤ b.num_visitors))

instance : IsTotal ParkSummaryRow nvLE := ⟨fun a b => Nat.le_total _ _⟩

instance : IsTrans ParkSummaryRow nvLE := ⟨fun _ _ _ => Nat.le_trans⟩

/-- `park_summary` (lines 296-307): group by `park_name`, aggregate, then
`sort_values("num_visitors", ascending=False)`, i.e. a stable ascending
sort whose permutation is then reversed. -/
def park_summary (g : List TripPing) : List ParkSummaryRow :=
  (((parkKeys g).map (mkParkRow g)).insertionSort nvLE).reverse

/-- Lexicographic order on `(ad_id, park_name)` group keys, as pandas
orders the groups of a two-column `groupby` (line 316). -/
def keyLE (a b : String × String) : Prop :=
  (strLtb a.1 b.1 || (a.1 == b.1 && !strLtb b.2 a.2)) = true

instance : DecidableRel keyLE := fun a b =>
  inferInstanceAs (Decidable (_ = true))

/-- Group keys of `focus_gdf.groupby(["ad_id", "park_name"])` (line 316):
distinct pairs with non-null park name, in ascending lexicographic order. -/
def tripKeys (g : List TripPing) : List (String × String) :=
  ((g.filterMap fun r => r.park_name.map fun p => (r.ad_id, p)).dedup).insertionSort keyLE

/-- The rows of the group keyed by a `(ad_id, park_name)` pair. -/
def tripGroup (k : String × String) (g : List TripPing) : List TripPing :=
  g.filter fun r => r.ad_id == k.1 && r.park_name == some k.2

/-- One row of the trip-statistics table (lines 314-323), pre-display. -/
structure TripSummaryRow where
  ad_id : String
  park_name : String
  num_pings : Nat
  first_ping : Nat
  last_ping : Nat
deriving DecidableEq, Repr

/-- The `.agg` of lines 317-321 for one `(ad_id, park_name)` group. -/
def mkTripRow (g : List TripPing) (k : String × String) : TripSummaryRow :=
  { ad_id := k.1
    park_name := k.2
    num_pings := (tripGroup k g).length
    first_ping := tsMin ((tripGroup k g).map (·.utc_timestamp))
    last_ping := tsMax ((tripGroup k g).map (·.utc_timestamp)) }

/-- `trip_stats` (lines 314-323): group by `(ad_id, park_name)` and
aggregate; no sort beyond the groupby key order. -/
def trip_stats (g : List TripPing) : List TripSummaryRow :=
  (tripKeys g).map (mkTripRow g)

/-- Minute truncation performed by `strftime("%Y-%m-%d %H:%M")`: the
display string carries exactly the minute count of the timestamp. -/
def strfMinute (ts : Nat) : Nat := ts / 60

/-- A park-summary row after the display formatting of lines 308-309:
`first_ping`/`last_ping` hold minute counts, not timestamps. -/
structure ParkSummaryDisplay where
  park_name : String
  num_visitors : Nat
  num_pings : Nat
  first_ping : Nat
  last_ping : Nat
deriving DecidableEq, Repr

/-- A trip-statistics row after the display formatting of lines 324-325. -/
structure TripSummaryDisplay where
  ad_id : String
  park_name : String
  num_pings : Nat
  first_ping : Nat
  last_ping : Nat
deriving DecidableEq, Repr

/-- Column overwrite of lines 308-309 on one row. -/
def parkRowDisplay (r : ParkSummaryRow) : ParkSummaryDisplay :=
  { park_name := r.park_name
    num_visitors := r.num_visitors
    num_pings := r.num_pings
    first_ping := strfMinute r.first_ping
    last_ping := strfMinute r.last_ping }

/-- Column overwrite of lines 324-325 on one row. -/
def tripRowDisplay (r : TripSummaryRow) : TripSummaryDisplay :=
  { ad_id := r.ad_id
    park_name := r.park_name
    num_pings := r.num_pings
    first_ping := strfMinute r.first_ping
    last_ping := strfMinute r.last_ping }

/-- The park-summary frame handed to `st.dataframe` (line 310): the
aggregation output of lines 296-307 with its timestamp columns replaced by
minute-resolution display values (lines 308-309). -/
def park_summary_display (g : List TripPing) : List ParkSummaryDisplay :=
  (park_summary g).map parkRowDisplay

/-- The trip-statistics frame handed to `st.dataframe` (line 327). -/
def trip_stats_display (g : List TripPing) : List TripSummaryDisplay :=
  (trip_stats g).map tripRowDisplay

/-- The single error of the pipeline's validation stage (lines 149-153). -/
inductive AppError where
  | incompleteDateRange : AppError
deriving DecidableEq, Repr

/-- Everything the core produces for the presentation layer. -/
structure PipelineOutput where
  filtered : List TripPing
  filteredParks : List ParkPolygon
  focus : List TripPing
  focusParks : List ParkPolygon
  parkSummaryRows : List ParkSummaryRow
  tripStatsRows : List TripSummaryRow
deriving DecidableEq, Repr

/-- The guard of line 149:
`selected_date_range and len(selected_date_range) == 2 and
all(selected_date_range)` — nonempty, exactly two entries, and both
present (Python `date` objects are truthy, `None` is falsy). -/
def dateRangeComplete (dr : List (Option Nat)) : Bool :=
  !dr.isEmpty && dr.length == 2 && dr.all Option.isSome

/-- The filter stage and aggregation stage (lines 162-202 and 296-323),
parametric in the visit-status mode. -/
def appOutputWith (mode : VisitorMode) (g : List TripPing)
    (parks : List ParkPolygon) (selected : List String) (s e : Nat)
    (active : String) : PipelineOutput :=
  let fg := filteredPoints mode selected s e g
  let fp := parksFilter selected parks
  let foc := focusPoints active fg
  let focP := focusParks active fp
  { filtered := fg
    filteredParks := fp
    focus := foc
    focusParks := focP
    parkSummaryRows := park_summary foc
    tripStatsRows := trip_stats foc }

/-- The deployed pipeline: visit-status hard-coded to `"Visitor"`
(line 169). -/
def appOutput (g : List TripPing) (parks : List ParkPolygon)
    (selected : List String) (s e : Nat) (active : String) : PipelineOutput :=
  appOutputWith .Visitor g parks selected s e active

/-- One full run of the script: the date-range guard of lines 149-153
runs first; only when it passes does any filtering or aggregation happen
(`st.stop()` is the `error` branch, which produces no outputs). -/
def runPipeline (g : List TripPing) (parks : List ParkPolygon)
    (selected : List String) (dr : List (Option Nat)) (active : String) :
    Except AppError PipelineOutput :=
  if dateRangeComplete dr then
    match dr with
    | [some s, some e] => .ok (appOutput g parks selected s e active)
    | _ => .error .incompleteDateRange
  else
    .error .incompleteDateRange

/-! ## Helper lemmas -/

/-- Predicate form of the park filter. -/
def parkPred (selected : List String) (r : TripPing) : Bool :=
  match r.park_name with
  | some p => selected.contains p
  | none => false

/-- Predicate form of the visit-status filter. -/
def visitorPred : VisitorMode → TripPing → Bool
  | .Visitor, r => r.visited_park == true
  | .NonVisitor, r => r.visited_park == false
  | .All, _ => true

/-- Predicate form of the date-range filter. -/
def datePred (s e : Nat) (r : TripPing) : Bool :=
  decide (s ≤ dateOf r.utc_timestamp) && decide (dateOf r.utc_timestamp ≤ e)

theorem parkFilter_eq_filter (selected : List String) (g : List TripPing) :
    parkFilter selected g = g.filter (parkPred selected) := rfl

theorem dateFilter_eq_filter (s e : Nat) (g : List TripPing) :
    dateFilter s e g = g.filter (datePred s e) := rfl

theorem visitorFilter_eq_filter (m : VisitorMode) (g : List TripPing) :
    visitorFilter m g = g.filter (visitorPred m) := by
  cases m with
  | All => exact (List.filter_true g).symm
  | Visitor => rfl
  | NonVisitor => rfl

theorem filter_swap {α : Type} (p q : α → Bool) (l : List α) :
    (l.filter q).filter p = (l.filter p).filter q := by
  simp only [List.filter_filter]
  induction l with
  | nil => rfl
  | cons a t ih =>
    by_cases hp : p a = true <;> by_cases hq : q a = true <;>
      simp [List.filter_cons, hp, hq, ih]

theorem foldl_min_le_init (t : List Nat) : ∀ a : Nat, t.foldl Nat.min a ≤ a := by
  induction t with
  | nil => intro a; exact Nat.le_refl a
  | cons b t ih =>
    intro a
    exact Nat.le_trans (ih (Nat.min a b)) (Nat.min_le_left a b)

theorem init_le_foldl_max (t : List Nat) : ∀ a : Nat, a ≤ t.foldl Nat.max a := by
  induction t with
  | nil => intro a; exact Nat.le_refl a
  | cons b t ih =>
    intro a
    exact Nat.le_trans (Nat.le_max_left a b) (ih (Nat.max a b))

theorem tsMin_le_tsMax {l : List Nat} (h : l ≠ []) : tsMin l ≤ tsMax l := by
  match l with
  | [] => exact absurd rfl h
  | a :: t =>
    exact Nat.le_trans (foldl_min_le_init t a) (init_le_foldl_max t a)

theorem foldl_choice_mem (f : Nat → Nat → Nat)
    (hf : ∀ a b, f a b = a ∨ f a b = b) :
    ∀ (t : List Nat) (a : Nat), t.foldl f a ∈ a :: t := by
  intro t
  induction t with
  | nil => intro a; simp
  | cons b t ih =>
    intro a
    have h := ih (f a b)
    have hstep : List.foldl f a (b :: t) = List.foldl f (f a b) t := rfl
    rw [hstep]
    rcases List.mem_cons.mp h with h2 | h2
    · rw [h2]
      rcases hf a b with h3 | h3 <;> rw [h3] <;> simp
    · exact List.mem_cons_of_mem _ (List.mem_cons_of_mem _ h2)

theorem tsMin_mem {l : List Nat} (h : l ≠ []) : tsMin l ∈ l := by
  match l with
  | [] => exact absurd rfl h
  | a :: t =>
    exact foldl_choice_mem Nat.min
      (fun a b => (Nat.le_total a b).imp Nat.min_eq_left Nat.min_eq_right) t a

theorem tsMax_mem {l : List Nat} (h : l ≠ []) : tsMax l ∈ l := by
  match l with
  | [] => exact absurd rfl h
  | a :: t =>
    exact foldl_choice_mem Nat.max
      (fun a b => (Nat.le_total b a).imp Nat.max_eq_left Nat.max_eq_right) t a

/-- A trip-group key only arises from an actual row of the frame. -/
theorem tripKeys_mem_group {g : List TripPing} {k : String × String}
    (hk : k ∈ tripKeys g) : tripGroup k g ≠ [] := by
  have h1 : k ∈ (g.filterMap fun r => r.park_name.map fun p => (r.ad_id, p)) :=
    List.mem_dedup.mp ((List.mem_insertionSort keyLE).mp hk)
  obtain ⟨r, hr, hfr⟩ := List.mem_filterMap.mp h1
  cases hp : r.park_name with
  | none => simp [hp] at hfr
  | some p =>
    simp [hp] at hfr
    subst hfr
    intro hnil
    have hmem : r ∈ tripGroup (r.ad_id, p) g := by
      unfold tripGroup
      rw [List.mem_filter]
      exact ⟨hr, by simp [hp]⟩
    rw [hnil] at hmem
    simp at hmem

theorem parkFilter_nil (g : List TripPing) : parkFilter [] g = [] := by
  rw [parkFilter_eq_filter]
  apply List.filter_eq_nil_iff.mpr
  intro a _
  cases h : a.park_name <;> simp [parkPred, h]

theorem parksFilter_nil (parks : List ParkPolygon) : parksFilter [] parks = [] := by
  apply List.filter_eq_nil_iff.mpr
  intro a _
  simp

theorem visitorFilter_nil (m : VisitorMode) : visitorFilter m [] = [] := by
  cases m <;> rfl

theorem focusPoints_nil (active : String) : focusPoints active [] = [] := by
  unfold focusPoints
  split <;> rfl

theorem focusParks_nil (active : String) : focusParks active [] = [] := by
  unfold focusParks
  split <;> rfl

theorem park_summary_nil : park_summary [] = [] := rfl

theorem trip_stats_nil : trip_stats [] = [] := rfl

/-! ## Demonstration data for witnesses -/

/-- Three pings over two parks and two devices; the first has a timestamp
that is not a whole minute. -/
def demoPings : List TripPing :=
  [⟨"d1", some "A", 864090, 0, 0, true⟩,
   ⟨"d2", some "A", 864000, 0, 0, false⟩,
   ⟨"d1", some "B", 1036861, 0, 0, true⟩]

/-- Two single-ping parks with one visitor each: the park summary has a
`num_visitors` tie between "A" (discovered first) and "B". -/
def cexPings : List TripPing :=
  [⟨"d1", some "A", 864000, 0, 0, true⟩,
   ⟨"d2", some "B", 864000, 0, 0, true⟩]

/-! ## Claims -/

/-- C1: the active-park focus never adds rows: with the sentinel `"All"` it
returns exactly the upstream-filtered point and polygon sets, and with any
specific park name it returns a sublist (hence subset) of them. -/
theorem focus_narrowing (mode : VisitorMode) (selected : List String)
    (s e : Nat) (g : List TripPing) (parks : List ParkPolygon) (p : String) :
    focusPoints "All" (filteredPoints mode selected s e g) =
      filteredPoints mode selected s e g ∧
    focusParks "All" (parksFilter selected parks) = parksFilter selected parks ∧
    List.Sublist (focusPoints p (filteredPoints mode selected s e g))
      (filteredPoints mode selected s e g) ∧
    List.Sublist (focusParks p (parksFilter selected parks))
      (parksFilter selected parks) := by
  refine ⟨?_, ?_, ?_, ?_⟩
  · simp [focusPoints]
  · simp [focusParks]
  · unfold focusPoints
    split
    · exact List.filter_sublist _
    · exact List.Sublist.refl _
  · unfold focusParks
    split
    · exact List.filter_sublist _
    · exact List.Sublist.refl _

/-- C2: for a fixed park selection, date range and visit-status mode, the
three upstream predicate filters commute: all six application orders yield
the same filtered point set. -/
theorem filters_commute (mode : VisitorMode) (selected : List String)
    (s e : Nat) (g : List TripPing) :
    dateFilter s e (visitorFilter mode (parkFilter selected g)) =
      dateFilter s e (parkFilter selected (visitorFilter mode g)) ∧
    dateFilter s e (visitorFilter mode (parkFilter selected g)) =
      visitorFilter mode (dateFilter s e (parkFilter selected g)) ∧
    dateFilter s e (visitorFilter mode (parkFilter selected g)) =
      visitorFilter mode (parkFilter selected (dateFilter s e g)) ∧
    dateFilter s e (visitorFilter mode (parkFilter selected g)) =
      parkFilter selected (dateFilter s e (visitorFilter mode g)) ∧
    dateFilter s e (visitorFilter mode (parkFilter selected g)) =
      parkFilter selected (visitorFilter mode (dateFilter s e g)) := by
  simp only [parkFilter_eq_filter, dateFilter_eq_filter, visitorFilter_eq_filter]
  refine ⟨?_, ?_, ?_, ?_, ?_⟩
  · exact congrArg _ (filter_swap (visitorPred mode) (parkPred selected) g)
  · exact filter_swap (datePred s e) (visitorPred mode) _
  · exact (filter_swap (datePred s e) (visitorPred mode) _).trans
      (congrArg _ (filter_swap (datePred s e) (parkPred selected) g))
  · exact (congrArg _ (filter_swap (visitorPred mode) (parkPred selected) g)).trans
      (filter_swap (datePred s e) (parkPred selected) _)
  · exact (congrArg _ (filter_swap (visitorPred mode) (parkPred selected) g)).trans
      ((filter_swap (datePred s e) (parkPred selected) _).trans
        (congrArg _ (filter_swap (datePred s e) (visitorPred mode) g)))

/-- C5: a ping passes the date-range filter iff it is in the input and its
calendar date lies between the two bounds, both inclusive; the comparison
is on the date of the timestamp, not the full timestamp. -/
theorem dateFilter_mem_iff (s e : Nat) (g : List TripPing) (r : TripPing) :
    r ∈ dateFilter s e g ↔
      r ∈ g ∧ s ≤ dateOf r.utc_timestamp ∧ dateOf r.utc_timestamp ≤ e := by
  simp [dateFilter, List.mem_filter, and_assoc]

/-- C7: an empty park selection empties every downstream product — the
filtered point and polygon sets, the focused sets, and both summaries —
for every date range, visit-status mode and focus setting; the pipeline
returns these empty collections rather than an error. -/
theorem empty_selection_all_empty (mode : VisitorMode) (g : List TripPing)
    (parks : List ParkPolygon) (s e : Nat) (active : String) :
    (appOutputWith mode g parks [] s e active).filtered = [] ∧
    (appOutputWith mode g parks [] s e active).filteredParks = [] ∧
    (appOutputWith mode g parks [] s e active).focus = [] ∧
    (appOutputWith mode g parks [] s e active).focusParks = [] ∧
    (appOutputWith mode g parks [] s e active).parkSummaryRows = [] ∧
    (appOutputWith mode g parks [] s e active).tripStatsRows = [] := by
  have h1 : filteredPoints mode [] s e g = [] := by
    unfold filteredPoints
    rw [parkFilter_nil, visitorFilter_nil]
    rfl
  have h2 : parksFilter [] parks = [] := parksFilter_nil parks
  simp [appOutputWith, h1, h2, focusPoints_nil, focusParks_nil,
    park_summary_nil, trip_stats_nil]

/-- C3: each trip-summary row's `num_pings` counts exactly the filtered
rows carrying its `(device_id, park_name)` pair, and its `first_ping` never
exceeds its `last_ping`. -/
theorem tripStats_agg_sound (g : List TripPing) (row : TripSummaryRow)
    (h : row ∈ trip_stats g) :
    row.num_pings =
      (g.filter fun r =>
        r.ad_id == row.ad_id && r.park_name == some row.park_name).length ∧
    row.first_ping ≤ row.last_ping := by
  obtain ⟨k, hk, hrow⟩ := List.mem_map.mp h
  subst hrow
  constructor
  · rfl
  · have hne : tripGroup k g ≠ [] := tripKeys_mem_group hk
    have hmapne : (tripGroup k g).map (·.utc_timestamp) ≠ [] := by
      simpa [List.map_eq_nil_iff] using hne
    exact tsMin_le_tsMax hmapne

theorem tripStats_agg_sound_witness :
    mkTripRow demoPings ("d1", "A") ∈ trip_stats demoPings ∧
    ((mkTripRow demoPings ("d1", "A")).num_pings =
      (demoPings.filter fun r =>
        r.ad_id == (mkTripRow demoPings ("d1", "A")).ad_id &&
          r.park_name == some (mkTripRow demoPings ("d1", "A")).park_name).length ∧
    (mkTripRow demoPings ("d1", "A")).first_ping ≤
      (mkTripRow demoPings ("d1", "A")).last_ping) :=
  ⟨by decide, tripStats_agg_sound demoPings (mkTripRow demoPings ("d1", "A")) (by decide)⟩

/-- C10 (implicit): in every park-summary row the distinct-device count is
at most the ping count, because each counted ping contributes at most one
distinct device. -/
theorem parkSummary_visitors_le_pings (g : List TripPing)
    (row : ParkSummaryRow) (h : row ∈ park_summary g) :
    row.num_visitors ≤ row.num_pings := by
  have h1 : row ∈ (parkKeys g).map (mkParkRow g) := by
    unfold park_summary at h
    rw [List.mem_reverse] at h
    exact (List.mem_insertionSort nvLE).mp h
  obtain ⟨p, hp, hrow⟩ := List.mem_map.mp h1
  subst hrow
  show (((parkGroup p g).map (·.ad_id)).dedup).length ≤ (parkGroup p g).length
  have hsub := List.Sublist.length_le (List.dedup_sublist ((parkGroup p g).map (·.ad_id)))
  simpa using hsub

theorem parkSummary_visitors_le_pings_witness :
    mkParkRow demoPings "A" ∈ park_summary demoPings ∧
    (mkParkRow demoPings "A").num_visitors ≤ (mkParkRow demoPings "A").num_pings :=
  ⟨by decide, parkSummary_visitors_le_pings demoPings (mkParkRow demoPings "A") (by decide)⟩

/-- C8: in the deployed configuration (visit-status selector omitted,
`selected_visitor_type` hard-coded to `"Visitor"`), every ping in the
filtered point set has `visited_park = true`. -/
theorem hardcoded_visitor_only (g : List TripPing) (parks : List ParkPolygon)
    (selected : List String) (s e : Nat) (active : String) (r : TripPing)
    (h : r ∈ (appOutput g parks selected s e active).filtered) :
    r.visited_park = true := by
  have hd : r ∈ dateFilter s e (visitorFilter .Visitor (parkFilter selected g)) := h
  rw [dateFilter_eq_filter] at hd
  have hv : r ∈ visitorFilter .Visitor (parkFilter selected g) :=
    List.mem_of_mem_filter hd
  rw [visitorFilter_eq_filter] at hv
  have hp := (List.mem_filter.mp hv).2
  simpa [visitorPred] using hp

theorem hardcoded_visitor_only_witness :
    (⟨"d1", some "A", 864090, 0, 0, true⟩ : TripPing) ∈
      (appOutput demoPings [] ["A", "B"] 10 12 "All").filtered ∧
    (⟨"d1", some "A", 864090, 0, 0, true⟩ : TripPing).visited_park = true :=
  ⟨by decide,
    hardcoded_visitor_only demoPings [] ["A", "B"] 10 12 "All" _ (by decide)⟩

/-- C4 (amended part): the park summary is non-increasing in
`num_visitors` from the first row to the last. -/
theorem parkSummary_sorted_desc (g : List TripPing) :
    ((park_summary g).map (·.num_visitors)).Sorted (fun a b => b ≤ a) := by
  have hs : (((parkKeys g).map (mkParkRow g)).insertionSort nvLE).Sorted nvLE :=
    List.sorted_insertionSort nvLE _
  unfold park_summary
  rw [List.Sorted, List.pairwise_map, List.pairwise_reverse]
  exact hs

/-- Modelled from the spec (for refutation only): the row order the claim
demands — groups in original discovery order (first occurrence in the
input), then a stable descending sort on `num_visitors`, so that tied
groups keep their discovery order. -/
def discoveryKeys (g : List TripPing) : List String :=
  (g.filterMap (·.park_name)).foldl
    (fun acc p => if p ∈ acc then acc else acc ++ [p]) []

/-- Descending comparison on `num_visitors`; a stable sort with it keeps
tied rows in their input order. -/
def nvGE (a b : ParkSummaryRow) : Prop := b.num_visitors ≤ a.num_visitors

instance : DecidableRel nvGE := fun a b =>
  inferInstanceAs (Decidable (b.num_visitors ≤ a.num_visitors))

/-- Modelled from the spec (for refutation only): the park summary with the
tie-breaking order the claim states. -/
def park_summary_claimed (g : List TripPing) : List ParkSummaryRow :=
  ((discoveryKeys g).map (mkParkRow g)).insertionSort nvGE

/-- C4 (counterexample): on `cexPings`, parks "A" and "B" tie at one
visitor each and "A" is discovered first, yet the code emits "B" before
"A" — `sort_values(ascending=False)` reverses a stable ascending sort, so
ties come out in reversed, not stable, order. -/
theorem parkSummary_tie_order_cex :
    park_summary cexPings ≠ park_summary_claimed cexPings ∧
    (park_summary cexPings).map (·.park_name) = ["B", "A"] ∧
    (park_summary_claimed cexPings).map (·.park_name) = ["A", "B"] := by
  refine ⟨by decide, by decide, by decide⟩

/-- C6: when the date-range input is missing a bound (fewer or more than
two entries, or an absent entry), the run signals the incomplete-input
error and produces no outputs at all — no filtering result and no
aggregation result — rather than proceeding with a defaulted range. -/
theorem incomplete_range_halts (g : List TripPing) (parks : List ParkPolygon)
    (selected : List String) (dr : List (Option Nat)) (active : String)
    (h : dr.length ≠ 2 ∨ (none : Option Nat) ∈ dr) :
    runPipeline g parks selected dr active = .error .incompleteDateRange := by
  have hguard : dateRangeComplete dr = false := by
    unfold dateRangeComplete
    rcases h with h | h
    · have hlen : (dr.length == 2) = false := by simpa using h
      simp [hlen]
    · cases hall : dr.all Option.isSome with
      | false => simp [hall]
      | true =>
        have hsome := List.all_eq_true.mp hall none h
        simp at hsome
  simp [runPipeline, hguard]

theorem incomplete_range_halts_witness :
    (([some 10] : List (Option Nat)).length ≠ 2 ∨
      (none : Option Nat) ∈ ([some 10] : List (Option Nat))) ∧
    runPipeline demoPings [] ["A"] [some 10] "All" =
      .error .incompleteDateRange :=
  ⟨Or.inl (by decide),
    incomplete_range_halts demoPings [] ["A"] [some 10] "All"
      (Or.inl (by decide))⟩

/-- C9: the aggregation output carries full-precision timestamps — each
summary row's `first_ping`/`last_ping` is literally one of the group's raw
`utc_timestamp` values — and the minute-resolution truncation is a
separate display step applied afterwards to the aggregation output
(`trip_stats_display`/`park_summary_display` factor through the
full-precision summaries via `strfMinute`). -/
theorem core_full_precision (g : List TripPing) (row : TripSummaryRow)
    (h : row ∈ trip_stats g) :
    row.first_ping ∈
      (tripGroup (row.ad_id, row.park_name) g).map (·.utc_timestamp) ∧
    row.last_ping ∈
      (tripGroup (row.ad_id, row.park_name) g).map (·.utc_timestamp) ∧
    trip_stats_display g = (trip_stats g).map tripRowDisplay ∧
    park_summary_display g = (park_summary g).map parkRowDisplay := by
  obtain ⟨k, hk, hrow⟩ := List.mem_map.mp h
  subst hrow
  have hne : (tripGroup k g).map (·.utc_timestamp) ≠ [] := by
    simpa [List.map_eq_nil_iff] using tripKeys_mem_group hk
  exact ⟨tsMin_mem hne, tsMax_mem hne, rfl, rfl⟩

theorem core_full_precision_witness :
    mkTripRow demoPings ("d1", "B") ∈ trip_stats demoPings ∧
    ((mkTripRow demoPings ("d1", "B")).first_ping ∈
      (tripGroup ((mkTripRow demoPings ("d1", "B")).ad_id,
        (mkTripRow demoPings ("d1", "B")).park_name) demoPings).map
          (·.utc_timestamp) ∧
    (mkTripRow demoPings ("d1", "B")).last_ping ∈
      (tripGroup ((mkTripRow demoPings ("d1", "B")).ad_id,
        (mkTripRow demoPings ("d1", "B")).park_name) demoPings).map
          (·.utc_timestamp) ∧
    trip_stats_display demoPings = (trip_stats demoPings).map tripRowDisplay ∧
    park_summary_display demoPings =
      (park_summary demoPings).map parkRowDisplay) :=
  ⟨by decide,
    core_full_precision demoPings (mkTripRow demoPings ("d1", "B")) (by decide)⟩
